import Mathlib

/-!
Verification of the process supervisor of HOPM (`src/main.c`).

The development shallowly embeds `main.c`:

* `parseOpts` embeds the `getopt` switch (lines 114-131);
* `startupTrace` embeds the straight-line bootstrap (lines 104-255) as an
  event trace together with a startup outcome;
* `loopIter` embeds one iteration of the main loop (lines 257-317) as the
  list of collaborator/system actions it performs plus a step result;
* `do_signal` embeds the signal handler (lines 74-94) and `main_restart`
  the exposed restart-request entry point (lines 327-331).

External collaborators (`irc_cycle`, `config_load`, `log_printf`, the C
library, the kernel) are represented by events/actions and by environment
fields recording the results of their calls.
-/

namespace Hopm

/-- Result of one `getopt(argc, argv, "dc:")` call as consumed by the option
switch of `main` (lines 114-131).  `optC` carries `optarg`; `unknown` is any
other return value, which reaches the `default:` label. -/
inductive OptResult where
  | optC (arg : String)
  | optD
  | unknown (c : Char)
deriving DecidableEq

/-- Whether a `getopt` result reaches the `default:` label of the option
switch (anything other than `-c` and `-d`). -/
def isUnknownOpt : OptResult → Bool
  | OptResult.unknown _ => true
  | _ => false

/-- The option loop of `main` (lines 114-131), folding over the sequence of
`getopt` results.  State is `(CONFNAME, OPT_DEBUG)`.  `OPT_DEBUG` is a C
`unsigned int`, so `++OPT_DEBUG` wraps modulo 2^32.  The `default:` case does
nothing and the loop continues with the next option. -/
def parseOpts : List OptResult → String × Nat → String × Nat
  | [], st => st
  | OptResult.optC a :: rest, (_, d) => parseOpts rest (a, d)
  | OptResult.optD :: rest, (n, d) => parseOpts rest (n, (d + 1) % 4294967296)
  | OptResult.unknown _ :: rest, st => parseOpts rest st

/-- The three module-level flags `RESTART`, `REOPEN`, `ALARMED`
(lines 45-47). -/
structure Flags where
  restart : Bool
  reopen : Bool
  alarmed : Bool
deriving DecidableEq

/-- One observable action of a main-loop iteration: a collaborator call, a
log write, a system call, or the clearing of a flag. -/
inductive LAction where
  | ircCycle
  | scanCycle
  | logMsg (msg : String)
  | getrlimitNofile
  | setCloexec (fd : Nat)
  | execvCall (path : String)
  | logClose
  | logOpenCall (path : String)
  | scanlogClose
  | scanlogOpenCall (path : String)
  | clearReopen
  | ircTimer
  | scanTimer
  | commandTimer
  | clearAlarmed
deriving DecidableEq

/-- How one iteration of the main loop ends: continue with updated flags
(`next`), terminate with an exit status (`exited`, covering both `return n`
from `main` and `exit(n)`), or successful `execv` replacing the image with
the original argument vector (`replaced`). -/
inductive StepResult where
  | next (s : Flags)
  | exited (code : Nat)
  | replaced (argv : List String)
deriving DecidableEq

/-- Environment of a main-loop iteration: the values of the globals it reads
and the results of the fallible system calls it makes.  `fcntlOk` records,
per descriptor, whether `fcntl(i, F_SETFD, FD_CLOEXEC)` would succeed; the
code never inspects that return value. -/
structure LoopEnv where
  debug : Nat
  rlimNofile : Option Nat
  execvOk : Bool
  fcntlOk : Nat → Bool
  scanlog : Option String
  logfile : String
  binpath : String
  argv : List String
  errnoStr : String

/-- Line 270. -/
def restartMsg : String := "MAIN -> Restarting process"

/-- Line 275, with `strerror(errno)` substituted. -/
def rlimitErrMsg (errnoStr : String) : String :=
  "MAIN RESTART -> getrlimit() error retrieving RLIMIT_NOFILE (" ++ errnoStr ++ ")"

/-- Line 285, with `HOPM_BINPATH` and `strerror(errno)` substituted. -/
def execErrMsg (binpath errnoStr : String) : String :=
  "MAIN RESTART -> Execution of \"" ++ binpath ++ "\" failed. ERROR: " ++ errnoStr

/-- Line 293. -/
def reopenStartMsg : String := "MAIN -> Caught SIGUSR1, reopening logfiles"

/-- Line 303. -/
def reopenDoneMsg : String := "MAIN -> reopened logfiles"

/-- One iteration of the main loop (lines 257-317), as the list of actions
performed and the step result.  The close-on-exec `for` loop (line 280) uses
a 32-bit counter compared against `rlim.rlim_cur`; it is embedded as
`List.range n`, which is faithful for every ceiling `n < 2^32` (for larger
ceilings the C loop would not terminate; theorems carry that bound). -/
def loopIter (env : LoopEnv) (s : Flags) : List LAction × StepResult :=
  let pre : List LAction := [LAction.ircCycle, LAction.scanCycle]
  if s.restart then
    if env.debug ≠ 0 then
      (pre, StepResult.exited 1)
    else
      match env.rlimNofile with
      | none =>
          (pre ++ [LAction.logMsg restartMsg, LAction.getrlimitNofile,
                   LAction.logMsg (rlimitErrMsg env.errnoStr)],
           StepResult.exited 1)
      | some n =>
          let marks := (List.range n).map LAction.setCloexec
          if env.execvOk then
            (pre ++ [LAction.logMsg restartMsg, LAction.getrlimitNofile] ++ marks
                 ++ [LAction.execvCall env.binpath],
             StepResult.replaced env.argv)
          else
            (pre ++ [LAction.logMsg restartMsg, LAction.getrlimitNofile] ++ marks
                 ++ [LAction.execvCall env.binpath,
                     LAction.logMsg (execErrMsg env.binpath env.errnoStr)],
             StepResult.exited 0)
  else
    let reopenActs : List LAction :=
      if s.reopen then
        [LAction.logMsg reopenStartMsg, LAction.logClose, LAction.logOpenCall env.logfile]
          ++ (match env.scanlog with
              | some p => [LAction.scanlogClose, LAction.scanlogOpenCall p]
              | none => [])
          ++ [LAction.logMsg reopenDoneMsg, LAction.clearReopen]
      else []
    let timerActs : List LAction :=
      if s.alarmed then
        [LAction.ircTimer, LAction.scanTimer, LAction.commandTimer, LAction.clearAlarmed]
      else []
    let s1 : Flags := if s.reopen then { s with reopen := false } else s
    let s2 : Flags := if s1.alarmed then { s1 with alarmed := false } else s1
    (pre ++ reopenActs ++ timerActs, StepResult.next s2)

/-- The four handled signals (lines 247-250). -/
inductive Signal where
  | sigalrm
  | sigint
  | sighup
  | sigusr1
deriving DecidableEq

/-- Effect of delivering one signal to `do_signal`: either pure flag updates
(plus, for `SIGALRM`, re-arming the one-second alarm), or, for `SIGINT`,
a synchronous log write and immediate `exit(0)`. -/
inductive SigResult where
  | flagsOnly (s : Flags) (rearmAlarm : Bool)
  | terminate (logged : String) (code : Nat)
deriving DecidableEq

/-- The signal handler `do_signal` (lines 74-94). -/
def do_signal : Signal → Flags → SigResult
  | Signal.sigalrm, s => SigResult.flagsOnly { s with alarmed := true } true
  | Signal.sigint, _ => SigResult.terminate "MAIN -> Caught SIGINT, bye!" 0
  | Signal.sighup, s => SigResult.flagsOnly { s with restart := true } false
  | Signal.sigusr1, s => SigResult.flagsOnly { s with reopen := true } false

/-- `main_restart` (lines 327-331): the collaborator-facing restart request. -/
def main_restart (s : Flags) : Flags := { s with restart := true }

/-- Fuel-bounded driver of the main loop: runs `loopIter` until it stops
continuing or fuel runs out (`none` = still running). -/
def runLoop (env : LoopEnv) : Nat → Flags → List LAction × Option StepResult
  | 0, _ => ([], none)
  | fuel + 1, s =>
    match loopIter env s with
    | (acts, StepResult.next s1) =>
        let r := runLoop env fuel s1
        (acts ++ r.1, r.2)
    | (acts, StepResult.exited c) => (acts, some (StepResult.exited c))
    | (acts, StepResult.replaced a) => (acts, some (StepResult.replaced a))

/-- Actions belonging to the collaborator progress calls (step 1 of each
iteration). -/
def isProgressAct : LAction → Bool
  | LAction.ircCycle => true
  | LAction.scanCycle => true
  | _ => false

/-- Actions belonging to log-rotation handling (the `REOPEN` block,
lines 291-306), other than its log messages. -/
def isRotationAct : LAction → Bool
  | LAction.logClose => true
  | LAction.logOpenCall _ => true
  | LAction.scanlogClose => true
  | LAction.scanlogOpenCall _ => true
  | LAction.clearReopen => true
  | _ => false

/-- Actions belonging to timer handling (the `ALARMED` block,
lines 308-316). -/
def isTimerAct : LAction → Bool
  | LAction.ircTimer => true
  | LAction.scanTimer => true
  | LAction.commandTimer => true
  | LAction.clearAlarmed => true
  | _ => false

/-- Close-on-exec marking actions (line 281). -/
def isCloexecAct : LAction → Bool
  | LAction.setCloexec _ => true
  | _ => false

/-- Build-time constants of `main.c`: `DEFAULTNAME`, `HOPM_ETCDIR`,
`HOPM_LOGDIR`, `CONFEXT`, `LOGEXT`, `HOPM_PREFIX` (the installation root,
field `instRoot`), `HOPM_BINPATH` and `VERSION`, all supplied by `setup.h`
and the build system. -/
structure BuildConfig where
  defaultname : String
  etcdir : String
  logdir : String
  confext : String
  logext : String
  instRoot : String
  binpath : String
  version : String

/-- Outcome of `fork()` from the calling process's point of view. -/
inductive ForkResult where
  | failed
  | parent
  | child
deriving DecidableEq

/-- Environment of the bootstrap sequence: the `getopt` results, the
configuration values produced by `config_load` (`OptionsItem.scanlog`,
`OptionsItem.pidfile`), the process id, and the success of each fallible
system call made before the main loop. -/
structure StartEnv where
  argvOpts : List OptResult
  pledgeBroadOk : Bool
  unveilRootOk : Bool
  unveilPrefOk : Bool
  chdirOk : Bool
  forkResult : ForkResult
  setpgidOk : Bool
  devnullOk : Bool
  unveilLogOk : Bool
  unveilConfOk : Bool
  scanlog : Option String
  pidfile : String
  unveilScanOk : Bool
  unveilPidOk : Bool
  unveilBinOk : Bool
  pledgeFinalOk : Bool
  pidOpenOk : Bool
  pid : Nat
  errnoStr : String
deriving DecidableEq

/-- One observable event of the bootstrap sequence (lines 104-255). -/
inductive Event where
  | pledge (promises : String)
  | unveil (path rights : String)
  | errReport (what : String)
  | perrorMsg (what : String)
  | setupCore
  | chdirTo (dir : String)
  | forkCall
  | setpgidCall
  | umaskSet (mask : Nat)
  | openDevNull
  | dup2Std
  | logOpenCall (path : String)
  | logMsg (msg : String)
  | configLoad (path : String)
  | scanlogOpen (path : String)
  | fopenPid (path : String)
  | writePid (line : String)
  | closePid
  | installHandlers
  | ignoreSigpipe
  | armAlarm
deriving DecidableEq

/-- How the bootstrap ends: termination before the main loop (`exited`,
covering `err`, `exit`, `_exit` and the parent's exit after `fork`), or
entry into the main loop. -/
inductive StartOutcome where
  | exited (code : Nat)
  | enteredLoop
deriving DecidableEq

/-- `CONFNAME` after option processing (line 54 default, line 123). -/
def confnameOf (cfg : BuildConfig) (env : StartEnv) : String :=
  (parseOpts env.argvOpts (cfg.defaultname, 0)).1

/-- `OPT_DEBUG` after option processing (lines 59, 126). -/
def debugOf (cfg : BuildConfig) (env : StartEnv) : Nat :=
  (parseOpts env.argvOpts (cfg.defaultname, 0)).2

/-- `CONFFILE` (line 139): `"%s/%s.%s"` of `CONFDIR`, `CONFNAME`,
`CONFEXT`. -/
def conffileOf (cfg : BuildConfig) (env : StartEnv) : String :=
  cfg.etcdir ++ "/" ++ confnameOf cfg env ++ "." ++ cfg.confext

/-- `LOGFILE` (line 140): `"%s/%s.%s"` of `LOGDIR`, `CONFNAME`, `LOGEXT`. -/
def logfileOf (cfg : BuildConfig) (env : StartEnv) : String :=
  cfg.logdir ++ "/" ++ confnameOf cfg env ++ "." ++ cfg.logext

/-- Lines 214-255: from the pid-file unveil to entering the main loop.
`pre` is the event list accumulated so far.  Note the source order: the pid
file is `fopen`ed (line 218) and the restart binary unveiled (line 220)
before the final `pledge` (line 224); only then is the pid written
(line 230) or the open failure reported (lines 235-237). -/
def startupTail2 (cfg : BuildConfig) (env : StartEnv) (pre : List Event) :
    List Event × StartOutcome :=
  let e1 := pre ++ [Event.unveil env.pidfile "wc"]
  if !env.unveilPidOk then (e1 ++ [Event.errReport "unveil"], StartOutcome.exited 1) else
  let e2 := e1 ++ [Event.fopenPid env.pidfile, Event.unveil cfg.binpath "x"]
  if !env.unveilBinOk then (e2 ++ [Event.errReport "unveil"], StartOutcome.exited 1) else
  let e3 := e2 ++ [Event.pledge "stdio inet dns exec"]
  if !env.pledgeFinalOk then (e3 ++ [Event.errReport "pledge"], StartOutcome.exited 1) else
  if env.pidOpenOk then
    (e3 ++ [Event.writePid (Nat.repr (env.pid % 4294967296) ++ "\n"), Event.closePid,
            Event.installHandlers, Event.ignoreSigpipe, Event.armAlarm],
     StartOutcome.enteredLoop)
  else
    (e3 ++ [Event.logMsg ("MAIN -> Error opening pid file " ++ env.pidfile ++ ": "
              ++ env.errnoStr)],
     StartOutcome.exited 1)

/-- Lines 197-212: startup banner, configuration load, optional scan log. -/
def startupTail (cfg : BuildConfig) (env : StartEnv) (pre : List Event) :
    List Event × StartOutcome :=
  let e1 := pre ++ [Event.logMsg ("MAIN -> HOPM " ++ cfg.version ++ " started."),
                    Event.logMsg "MAIN -> Reading configuration file...",
                    Event.unveil (conffileOf cfg env) "r"]
  if !env.unveilConfOk then (e1 ++ [Event.errReport "unveil"], StartOutcome.exited 1) else
  let e2 := e1 ++ [Event.configLoad (conffileOf cfg env)]
  match env.scanlog with
  | some sl =>
      let e3 := e2 ++ [Event.unveil sl "wc"]
      if !env.unveilScanOk then (e3 ++ [Event.errReport "unveil"], StartOutcome.exited 1)
      else startupTail2 cfg env (e3 ++ [Event.scanlogOpen sl])
  | none => startupTail2 cfg env e2

/-- The bootstrap sequence of `main` (lines 104-255), as an event trace and
a startup outcome.  `umask 077` is the octal mask 0o77. -/
def startupTrace (cfg : BuildConfig) (env : StartEnv) : List Event × StartOutcome :=
  let e0 : List Event := [Event.pledge "stdio rpath wpath cpath inet dns proc exec unveil"]
  if !env.pledgeBroadOk then (e0 ++ [Event.errReport "pledge"], StartOutcome.exited 1) else
  let e1 := e0 ++ [Event.unveil "/" ""]
  if !env.unveilRootOk then (e1 ++ [Event.errReport "unveil"], StartOutcome.exited 1) else
  let e2 := e1 ++ [Event.setupCore, Event.unveil cfg.instRoot "r"]
  if !env.unveilPrefOk then (e2 ++ [Event.errReport "unveil"], StartOutcome.exited 1) else
  let e3 := e2 ++ [Event.chdirTo cfg.instRoot]
  if !env.chdirOk then (e3 ++ [Event.perrorMsg "chdir"], StartOutcome.exited 1) else
  if debugOf cfg env = 0 then
    match env.forkResult with
    | ForkResult.failed =>
        (e3 ++ [Event.forkCall, Event.perrorMsg "fork()"], StartOutcome.exited 1)
    | ForkResult.parent => (e3 ++ [Event.forkCall], StartOutcome.exited 0)
    | ForkResult.child =>
        let e4 := e3 ++ [Event.forkCall, Event.setpgidCall]
        if !env.setpgidOk then (e4 ++ [Event.perrorMsg "setpgid()"], StartOutcome.exited 1) else
        let e5 := e4 ++ [Event.umaskSet 0o77, Event.openDevNull]
        if !env.devnullOk then (e5 ++ [Event.perrorMsg "open()"], StartOutcome.exited 1) else
        let e6 := e5 ++ [Event.dup2Std, Event.unveil (logfileOf cfg env) "wc"]
        if !env.unveilLogOk then (e6 ++ [Event.errReport "unveil"], StartOutcome.exited 1)
        else startupTail cfg env (e6 ++ [Event.logOpenCall (logfileOf cfg env)])
  else
    startupTail cfg env
      (e3 ++ [Event.logMsg ("MAIN -> Debug level " ++ Nat.repr (debugOf cfg env))])

/-- Every system call of the bootstrap up to (and including) the final
`pledge` succeeded, and this process is the forked child when a fork
happens. -/
def StartEnv.allOk (env : StartEnv) : Prop :=
  env.pledgeBroadOk = true ∧ env.unveilRootOk = true ∧ env.unveilPrefOk = true ∧
  env.chdirOk = true ∧ env.forkResult = ForkResult.child ∧ env.setpgidOk = true ∧
  env.devnullOk = true ∧ env.unveilLogOk = true ∧ env.unveilConfOk = true ∧
  env.unveilScanOk = true ∧ env.unveilPidOk = true ∧ env.unveilBinOk = true ∧
  env.pledgeFinalOk = true

instance (env : StartEnv) : Decidable env.allOk := by
  unfold StartEnv.allOk
  infer_instance

/-- The filesystem visibility grants of a trace: the `unveil` calls that
carry nonempty rights (the initial `unveil("/", "")` grants no rights). -/
def grantsOf (tr : List Event) : List (String × String) :=
  tr.filterMap (fun e =>
    match e with
    | Event.unveil p r => if r = "" then none else some (p, r)
    | _ => none)

/-- Any `unveil` call. -/
def isUnveilEvent : Event → Bool
  | Event.unveil _ _ => true
  | _ => false

/-- The final sandbox narrowing: the `pledge` down to
`"stdio inet dns exec"` (line 224). -/
def isFinalNarrow : Event → Bool
  | Event.pledge s => s == "stdio inet dns exec"
  | _ => false

/-- The `fopen` of the pid file (line 218). -/
def isFopenPid : Event → Bool
  | Event.fopenPid _ => true
  | _ => false

/-- The write of the pid into the pid file (line 230). -/
def isWritePid : Event → Bool
  | Event.writePid _ => true
  | _ => false

/-- The grant order stated by the spec (§4.1 `grantPathVisibility`):
installation root (read), log file (write/create, skipped entirely in debug
mode), config file (read), optional scan log (write/create), pid file
(write/create), restart binary (execute). -/
def specGrantOrder (cfg : BuildConfig) (env : StartEnv) : List (String × String) :=
  [(cfg.instRoot, "r")]
    ++ (if debugOf cfg env = 0 then [(logfileOf cfg env, "wc")] else [])
    ++ [(conffileOf cfg env, "r")]
    ++ (match env.scanlog with
        | some sl => [(sl, "wc")]
        | none => [])
    ++ [(env.pidfile, "wc"), (cfg.binpath, "x")]

/-- Concrete loop environment used by witnesses and counterexamples. -/
def loopEnvW : LoopEnv :=
  { debug := 0, rlimNofile := some 4, execvOk := true, fcntlOk := fun _ => true,
    scanlog := some "/var/log/hopm/scan.log", logfile := "/var/log/hopm/hopm.log",
    binpath := "/usr/local/hopm/bin/hopm", argv := ["hopm", "-c", "hopm"],
    errnoStr := "No such file or directory" }

/-- Concrete build configuration used by witnesses and counterexamples. -/
def cfgW : BuildConfig :=
  { defaultname := "hopm", etcdir := "/usr/local/hopm/etc", logdir := "/usr/local/hopm/logs",
    confext := "conf", logext := "log", instRoot := "/usr/local/hopm",
    binpath := "/usr/local/hopm/bin/hopm", version := "1.1.12" }

/-- Concrete startup environment used by witnesses and counterexamples. -/
def startEnvW : StartEnv :=
  { argvOpts := [], pledgeBroadOk := true, unveilRootOk := true, unveilPrefOk := true,
    chdirOk := true, forkResult := ForkResult.child, setpgidOk := true, devnullOk := true,
    unveilLogOk := true, unveilConfOk := true, scanlog := some "/usr/local/hopm/logs/scan.log",
    pidfile := "/usr/local/hopm/var/hopm.pid", unveilScanOk := true, unveilPidOk := true,
    unveilBinOk := true, pledgeFinalOk := true, pidOpenOk := true, pid := 42,
    errnoStr := "Permission denied" }

theorem loopIter_restart_debug (env : LoopEnv) (s : Flags) (hr : s.restart = true)
    (hd : env.debug ≠ 0) :
    loopIter env s = ([LAction.ircCycle, LAction.scanCycle], StepResult.exited 1) := by
  simp [loopIter, hr, hd]

theorem loopIter_restart_norlim (env : LoopEnv) (s : Flags) (hr : s.restart = true)
    (hd : env.debug = 0) (hn : env.rlimNofile = none) :
    loopIter env s =
      ([LAction.ircCycle, LAction.scanCycle, LAction.logMsg restartMsg,
        LAction.getrlimitNofile, LAction.logMsg (rlimitErrMsg env.errnoStr)],
       StepResult.exited 1) := by
  simp [loopIter, hr, hd, hn]

theorem loopIter_restart_exec (env : LoopEnv) (s : Flags) (n : Nat) (hr : s.restart = true)
    (hd : env.debug = 0) (hn : env.rlimNofile = some n) (he : env.execvOk = true) :
    loopIter env s =
      ([LAction.ircCycle, LAction.scanCycle, LAction.logMsg restartMsg,
        LAction.getrlimitNofile] ++ (List.range n).map LAction.setCloexec
        ++ [LAction.execvCall env.binpath],
       StepResult.replaced env.argv) := by
  simp [loopIter, hr, hd, hn, he]

theorem loopIter_restart_execfail (env : LoopEnv) (s : Flags) (n : Nat) (hr : s.restart = true)
    (hd : env.debug = 0) (hn : env.rlimNofile = some n) (he : env.execvOk = false) :
    loopIter env s =
      ([LAction.ircCycle, LAction.scanCycle, LAction.logMsg restartMsg,
        LAction.getrlimitNofile] ++ (List.range n).map LAction.setCloexec
        ++ [LAction.execvCall env.binpath,
            LAction.logMsg (execErrMsg env.binpath env.errnoStr)],
       StepResult.exited 0) := by
  simp [loopIter, hr, hd, hn, he]

theorem loopIter_norestart (env : LoopEnv) (s : Flags) (hr : s.restart = false) :
    loopIter env s =
      ([LAction.ircCycle, LAction.scanCycle]
         ++ (if s.reopen then
               [LAction.logMsg reopenStartMsg, LAction.logClose,
                LAction.logOpenCall env.logfile]
                 ++ (match env.scanlog with
                     | some p => [LAction.scanlogClose, LAction.scanlogOpenCall p]
                     | none => [])
                 ++ [LAction.logMsg reopenDoneMsg, LAction.clearReopen]
             else [])
         ++ (if s.alarmed then
               [LAction.ircTimer, LAction.scanTimer, LAction.commandTimer,
                LAction.clearAlarmed]
             else []),
       StepResult.next ⟨s.restart, false, false⟩) := by
  obtain ⟨r, o, a⟩ := s
  subst hr
  cases o <;> cases a <;> simp [loopIter]

theorem filter_cloexec_map_eq_nil (p : LAction → Bool)
    (h : ∀ i, p (LAction.setCloexec i) = false) (n : Nat) :
    ((List.range n).map LAction.setCloexec).filter p = [] := by
  induction n with
  | zero => simp
  | succ k ih => rw [List.range_succ]; simp [List.filter_append, ih, h]

theorem filter_cloexec_map_eq_self (n : Nat) :
    ((List.range n).map LAction.setCloexec).filter isCloexecAct
      = (List.range n).map LAction.setCloexec := by
  rw [List.filter_eq_self]
  intro a ha
  obtain ⟨i, _, rfl⟩ := List.mem_map.1 ha
  rfl

/-- C3: within every iteration, the two collaborator progress calls come
first; if restart handling runs (flag set), no rotation action and no timer
action of that iteration is ever performed and the iteration never
continues; and every rotation action performed precedes every timer action
performed. -/
theorem scheduler_priority_order (env : LoopEnv) (s : Flags) :
    (loopIter env s).1.take 2 = [LAction.ircCycle, LAction.scanCycle] ∧
    (s.restart = true →
      (loopIter env s).1.filter isRotationAct = [] ∧
      (loopIter env s).1.filter isTimerAct = [] ∧
      ∀ s1, (loopIter env s).2 ≠ StepResult.next s1) ∧
    ((loopIter env s).1.filter (fun x => isRotationAct x || isTimerAct x) =
      (loopIter env s).1.filter isRotationAct ++ (loopIter env s).1.filter isTimerAct) := by
  cases hr : s.restart with
  | false =>
      rw [loopIter_norestart env s hr]
      refine ⟨by simp, by simp [hr], ?_⟩
      cases s.reopen <;> cases s.alarmed <;> cases env.scanlog <;>
        simp [List.filter_append, isRotationAct, isTimerAct]
  | true =>
      by_cases hd : env.debug = 0
      · cases hn : env.rlimNofile with
        | none =>
            rw [loopIter_restart_norlim env s hr hd hn]
            simp [isRotationAct, isTimerAct]
        | some n =>
            cases he : env.execvOk with
            | true =>
                rw [loopIter_restart_exec env s n hr hd hn he]
                simp [List.filter_append, isRotationAct, isTimerAct,
                      filter_cloexec_map_eq_nil]
            | false =>
                rw [loopIter_restart_execfail env s n hr hd hn he]
                simp [List.filter_append, isRotationAct, isTimerAct,
                      filter_cloexec_map_eq_nil]
      · rw [loopIter_restart_debug env s hr hd]
        simp [isRotationAct, isTimerAct]

/-- C3 witness at a concrete input with all three flags pending. -/
theorem scheduler_priority_order_witness :
    (loopIter loopEnvW ⟨true, true, true⟩).1.take 2
        = [LAction.ircCycle, LAction.scanCycle] ∧
    ((true : Bool) = true →
      (loopIter loopEnvW ⟨true, true, true⟩).1.filter isRotationAct = [] ∧
      (loopIter loopEnvW ⟨true, true, true⟩).1.filter isTimerAct = [] ∧
      ∀ s1, (loopIter loopEnvW ⟨true, true, true⟩).2 ≠ StepResult.next s1) ∧
    ((loopIter loopEnvW ⟨true, true, true⟩).1.filter
        (fun x => isRotationAct x || isTimerAct x) =
      (loopIter loopEnvW ⟨true, true, true⟩).1.filter isRotationAct
        ++ (loopIter loopEnvW ⟨true, true, true⟩).1.filter isTimerAct) :=
  scheduler_priority_order loopEnvW ⟨true, true, true⟩

/-- C4: whenever the tick flag is observed true (the loop reaches its check,
i.e. no restart is pending), the timer actions performed are exactly the
messaging timer, the scanning timer, the command-queue timer, and then the
clearing of the flag; the iteration continues with the flag cleared. -/
theorem tick_timers_in_order (env : LoopEnv) (s : Flags)
    (hr : s.restart = false) (ha : s.alarmed = true) :
    (loopIter env s).1.filter isTimerAct =
      [LAction.ircTimer, LAction.scanTimer, LAction.commandTimer, LAction.clearAlarmed] ∧
    (loopIter env s).2 = StepResult.next ⟨s.restart, false, false⟩ := by
  rw [loopIter_norestart env s hr]
  refine ⟨?_, rfl⟩
  cases s.reopen <;> cases env.scanlog <;>
    simp [ha, List.filter_append, isTimerAct]

/-- C4 witness. -/
theorem tick_timers_in_order_witness :
    (false = false ∧ true = true) ∧
    ((loopIter loopEnvW ⟨false, false, true⟩).1.filter isTimerAct =
      [LAction.ircTimer, LAction.scanTimer, LAction.commandTimer, LAction.clearAlarmed] ∧
    (loopIter loopEnvW ⟨false, false, true⟩).2
        = StepResult.next ⟨false, false, false⟩) :=
  ⟨⟨rfl, rfl⟩, tick_timers_in_order loopEnvW ⟨false, false, true⟩ rfl rfl⟩

/-- C7: a restart request observed while the debug level is nonzero
terminates the iteration immediately with exit status 1 (distinct from the
interrupt-shutdown status 0): only the two progress calls have run, no
`execv` is attempted and nothing is logged in the restart branch. -/
theorem debug_restart_refused (env : LoopEnv) (s : Flags)
    (hr : s.restart = true) (hd : 0 < env.debug) :
    (loopIter env s).1 = [LAction.ircCycle, LAction.scanCycle] ∧
    (loopIter env s).2 = StepResult.exited 1 ∧
    (∀ p, LAction.execvCall p ∉ (loopIter env s).1) ∧
    (∀ m, LAction.logMsg m ∉ (loopIter env s).1) ∧
    StepResult.exited 1 ≠ StepResult.exited 0 := by
  have hd0 : env.debug ≠ 0 := Nat.pos_iff_ne_zero.1 hd
  rw [loopIter_restart_debug env s hr hd0]
  refine ⟨rfl, rfl, ?_, ?_, by simp⟩ <;> intro x <;> simp

/-- C7 witness: debug level 2, restart pending. -/
theorem debug_restart_refused_witness :
    (true = true ∧ 0 < 2) ∧
    ((loopIter { loopEnvW with debug := 2 } ⟨true, false, false⟩).1
        = [LAction.ircCycle, LAction.scanCycle] ∧
    (loopIter { loopEnvW with debug := 2 } ⟨true, false, false⟩).2
        = StepResult.exited 1 ∧
    (∀ p, LAction.execvCall p ∉ (loopIter { loopEnvW with debug := 2 } ⟨true, false, false⟩).1) ∧
    (∀ m, LAction.logMsg m ∉ (loopIter { loopEnvW with debug := 2 } ⟨true, false, false⟩).1) ∧
    StepResult.exited 1 ≠ StepResult.exited 0) :=
  ⟨⟨rfl, by decide⟩,
    debug_restart_refused { loopEnvW with debug := 2 } ⟨true, false, false⟩ rfl (by decide)⟩

theorem progRotTimer_not_cloexec (i : Nat) :
    (isProgressAct (LAction.setCloexec i) || isRotationAct (LAction.setCloexec i)
      || isTimerAct (LAction.setCloexec i)) = false := rfl

theorem restart_snd_terminal (env : LoopEnv) (s : Flags) (hr : s.restart = true) :
    ∀ s1, (loopIter env s).2 ≠ StepResult.next s1 := by
  intro s1
  by_cases hd : env.debug = 0
  · cases hn : env.rlimNofile with
    | none => rw [loopIter_restart_norlim env s hr hd hn]; simp
    | some n =>
        cases he : env.execvOk with
        | true => rw [loopIter_restart_exec env s n hr hd hn he]; simp
        | false => rw [loopIter_restart_execfail env s n hr hd hn he]; simp
  · rw [loopIter_restart_debug env s hr hd]; simp

/-- C6: during restart handling in non-debug mode, a failing
descriptor-ceiling query is logged and exits with status 1; on success the
close-on-exec marks performed are exactly the descriptors `[0, n)` (for any
ceiling `n` below the 2^32 loop-counter bound) and none outside that range;
and the whole iteration is independent of which individual `fcntl` marking
calls would succeed. -/
theorem restart_cloexec_range (env : LoopEnv) (s : Flags)
    (hr : s.restart = true) (hd : env.debug = 0) :
    (env.rlimNofile = none →
      (loopIter env s).2 = StepResult.exited 1 ∧
      LAction.logMsg (rlimitErrMsg env.errnoStr) ∈ (loopIter env s).1) ∧
    (∀ n, env.rlimNofile = some n → n < 4294967296 →
      (loopIter env s).1.filter isCloexecAct = (List.range n).map LAction.setCloexec ∧
      ∀ i, LAction.setCloexec i ∈ (loopIter env s).1 → i < n) ∧
    (∀ f, loopIter { env with fcntlOk := f } s = loopIter env s) := by
  refine ⟨?_, ?_, fun f => rfl⟩
  · intro hn
    rw [loopIter_restart_norlim env s hr hd hn]
    simp
  · intro n hn _
    have hmem : ∀ i, LAction.setCloexec i ∈ (List.range n).map LAction.setCloexec → i < n := by
      intro i hi
      obtain ⟨j, hj, hji⟩ := List.mem_map.1 hi
      cases hji
      exact List.mem_range.1 hj
    cases he : env.execvOk with
    | true =>
        rw [loopIter_restart_exec env s n hr hd hn he]
        constructor
        · simp [List.filter_append, filter_cloexec_map_eq_self, isCloexecAct,
                filter_cloexec_map_eq_nil]
        · intro i hi
          refine hmem i ?_
          simpa [isCloexecAct] using hi
    | false =>
        rw [loopIter_restart_execfail env s n hr hd hn he]
        constructor
        · simp [List.filter_append, filter_cloexec_map_eq_self, isCloexecAct,
                filter_cloexec_map_eq_nil]
        · intro i hi
          refine hmem i ?_
          simpa [isCloexecAct] using hi

/-- C6 witness: restart pending, non-debug, ceiling 4. -/
theorem restart_cloexec_range_witness :
    (true = true ∧ loopEnvW.debug = 0) ∧
    ((loopEnvW.rlimNofile = none →
      (loopIter loopEnvW ⟨true, false, false⟩).2 = StepResult.exited 1 ∧
      LAction.logMsg (rlimitErrMsg loopEnvW.errnoStr)
          ∈ (loopIter loopEnvW ⟨true, false, false⟩).1) ∧
    (∀ n, loopEnvW.rlimNofile = some n → n < 4294967296 →
      (loopIter loopEnvW ⟨true, false, false⟩).1.filter isCloexecAct
          = (List.range n).map LAction.setCloexec ∧
      ∀ i, LAction.setCloexec i ∈ (loopIter loopEnvW ⟨true, false, false⟩).1 → i < n) ∧
    (∀ f, loopIter { loopEnvW with fcntlOk := f } ⟨true, false, false⟩
        = loopIter loopEnvW ⟨true, false, false⟩)) :=
  ⟨⟨rfl, rfl⟩, restart_cloexec_range loopEnvW ⟨true, false, false⟩ rfl rfl⟩

/-- C1 counterexample: with a failing `execv` (restart pending, non-debug,
ceiling 4), the restart branch logs the failure but terminates via `exit(0)`
— status 0, the same status as normal interrupt shutdown, not a distinct
nonzero one as the claim states. -/
theorem execv_fail_exit_status_cex :
    (loopIter { loopEnvW with execvOk := false } ⟨true, false, false⟩).2
        = StepResult.exited 0 ∧
    LAction.logMsg (execErrMsg "/usr/local/hopm/bin/hopm" "No such file or directory")
        ∈ (loopIter { loopEnvW with execvOk := false } ⟨true, false, false⟩).1 ∧
    ¬ (∃ c, c ≠ 0 ∧
        (loopIter { loopEnvW with execvOk := false } ⟨true, false, false⟩).2
          = StepResult.exited c) := by
  refine ⟨by decide, by decide, ?_⟩
  rintro ⟨c, hc, h⟩
  rw [show (loopIter { loopEnvW with execvOk := false } ⟨true, false, false⟩).2
        = StepResult.exited 0 by decide] at h
  cases h
  exact hc rfl

/-- C1 (amended): if image replacement fails during restart handling, the
process logs the failure and terminates unconditionally — but with exit
status 0, the same status as normal interrupt shutdown; it never continues
running the old image. -/
theorem execv_fail_logs_and_terminates (env : LoopEnv) (s : Flags) (n : Nat)
    (hr : s.restart = true) (hd : env.debug = 0)
    (hn : env.rlimNofile = some n) (he : env.execvOk = false) :
    (loopIter env s).2 = StepResult.exited 0 ∧
    LAction.logMsg (execErrMsg env.binpath env.errnoStr) ∈ (loopIter env s).1 ∧
    ∀ s1, (loopIter env s).2 ≠ StepResult.next s1 := by
  rw [loopIter_restart_execfail env s n hr hd hn he]
  refine ⟨rfl, by simp, by simp⟩

/-- C1 witness. -/
theorem execv_fail_logs_and_terminates_witness :
    (true = true ∧ ({ loopEnvW with execvOk := false } : LoopEnv).debug = 0 ∧
     ({ loopEnvW with execvOk := false } : LoopEnv).rlimNofile = some 4 ∧
     ({ loopEnvW with execvOk := false } : LoopEnv).execvOk = false) ∧
    ((loopIter { loopEnvW with execvOk := false } ⟨true, false, false⟩).2
        = StepResult.exited 0 ∧
     LAction.logMsg (execErrMsg ({ loopEnvW with execvOk := false } : LoopEnv).binpath
          ({ loopEnvW with execvOk := false } : LoopEnv).errnoStr)
        ∈ (loopIter { loopEnvW with execvOk := false } ⟨true, false, false⟩).1 ∧
     ∀ s1, (loopIter { loopEnvW with execvOk := false } ⟨true, false, false⟩).2
        ≠ StepResult.next s1) :=
  ⟨⟨rfl, rfl, rfl, rfl⟩,
    execv_fail_logs_and_terminates { loopEnvW with execvOk := false }
      ⟨true, false, false⟩ 4 rfl rfl rfl rfl⟩

/-- C9: once the restart flag is observed true the iteration never
continues; after the two progress calls of that iteration no further
progress, rotation or timer action is performed; the rest of the whole run
is exactly that one terminal iteration, for any amount of fuel; the hang-up
handler and `main_restart` set the flag; no handler flag update and no
continuing iteration ever clears it (a continuing iteration exists only in
restart-free states). -/
theorem restart_flag_never_cleared (env : LoopEnv) (s : Flags) (hr : s.restart = true) :
    (∀ s1, (loopIter env s).2 ≠ StepResult.next s1) ∧
    (((loopIter env s).1.drop 2).filter
        (fun x => isProgressAct x || isRotationAct x || isTimerAct x) = []) ∧
    (∀ fuel, runLoop env (fuel + 1) s = ((loopIter env s).1, some (loopIter env s).2)) ∧
    (∀ t r b, do_signal Signal.sighup t = SigResult.flagsOnly r b → r.restart = true) ∧
    (∀ t, (main_restart t).restart = true) ∧
    (∀ sig t r b, t.restart = true → do_signal sig t = SigResult.flagsOnly r b →
        r.restart = true) ∧
    (∀ env1 t t1, (loopIter env1 t).2 = StepResult.next t1 → t1.restart = false) := by
  have hfilter : ((loopIter env s).1.drop 2).filter
      (fun x => isProgressAct x || isRotationAct x || isTimerAct x) = [] := by
    by_cases hd : env.debug = 0
    · cases hn : env.rlimNofile with
      | none =>
          rw [loopIter_restart_norlim env s hr hd hn]
          simp [isProgressAct, isRotationAct, isTimerAct]
      | some n =>
          cases he : env.execvOk with
          | true =>
              rw [loopIter_restart_exec env s n hr hd hn he]
              simp [List.drop_append, List.filter_append, isProgressAct, isRotationAct,
                    isTimerAct,
                    filter_cloexec_map_eq_nil
                      (fun x => isProgressAct x || isRotationAct x || isTimerAct x)
                      (fun i => progRotTimer_not_cloexec i)]
          | false =>
              rw [loopIter_restart_execfail env s n hr hd hn he]
              simp [List.drop_append, List.filter_append, isProgressAct, isRotationAct,
                    isTimerAct,
                    filter_cloexec_map_eq_nil
                      (fun x => isProgressAct x || isRotationAct x || isTimerAct x)
                      (fun i => progRotTimer_not_cloexec i)]
    · rw [loopIter_restart_debug env s hr hd]
      simp
  refine ⟨restart_snd_terminal env s hr, hfilter, ?_, ?_, fun t => rfl, ?_, ?_⟩
  · intro fuel
    rcases h : loopIter env s with ⟨acts, res⟩
    cases res with
    | next s1 => exact absurd (by rw [h]) (restart_snd_terminal env s hr s1)
    | exited c => simp [runLoop, h]
    | replaced a => simp [runLoop, h]
  · intro t r b hsig
    have h2 : SigResult.flagsOnly { t with restart := true } false
        = SigResult.flagsOnly r b := hsig
    cases h2
    rfl
  · intro sig t r b ht hsig
    cases sig with
    | sigalrm =>
        have h2 : SigResult.flagsOnly { t with alarmed := true } true
            = SigResult.flagsOnly r b := hsig
        cases h2
        exact ht
    | sigint =>
        have h2 : SigResult.terminate "MAIN -> Caught SIGINT, bye!" 0
            = SigResult.flagsOnly r b := hsig
        cases h2
    | sighup =>
        have h2 : SigResult.flagsOnly { t with restart := true } false
            = SigResult.flagsOnly r b := hsig
        cases h2
        rfl
    | sigusr1 =>
        have h2 : SigResult.flagsOnly { t with reopen := true } false
            = SigResult.flagsOnly r b := hsig
        cases h2
        exact ht
  · intro env1 t t1 h
    cases ht : t.restart with
    | true => exact absurd h (restart_snd_terminal env1 t ht t1)
    | false =>
        rw [loopIter_norestart env1 t ht] at h
        cases h
        exact ht

/-- C9 witness. -/
theorem restart_flag_never_cleared_witness :
    (true = true) ∧
    ((∀ s1, (loopIter loopEnvW ⟨true, false, false⟩).2 ≠ StepResult.next s1) ∧
    (((loopIter loopEnvW ⟨true, false, false⟩).1.drop 2).filter
        (fun x => isProgressAct x || isRotationAct x || isTimerAct x) = []) ∧
    (∀ fuel, runLoop loopEnvW (fuel + 1) ⟨true, false, false⟩
        = ((loopIter loopEnvW ⟨true, false, false⟩).1,
           some (loopIter loopEnvW ⟨true, false, false⟩).2)) ∧
    (∀ t r b, do_signal Signal.sighup t = SigResult.flagsOnly r b → r.restart = true) ∧
    (∀ t, (main_restart t).restart = true) ∧
    (∀ sig t r b, t.restart = true → do_signal sig t = SigResult.flagsOnly r b →
        r.restart = true) ∧
    (∀ env1 t t1, (loopIter env1 t).2 = StepResult.next t1 → t1.restart = false)) :=
  ⟨rfl, restart_flag_never_cleared loopEnvW ⟨true, false, false⟩ rfl⟩

/-- C10: an unrecognized option reaches the `default:` label, which neither
terminates option processing nor changes the configuration name or the
debug level; processing continues with the remaining options, so deleting
all unrecognized options from the input changes nothing. -/
theorem unknown_option_ignored (c : Char) (rest : List OptResult) (st : String × Nat) :
    parseOpts (OptResult.unknown c :: rest) st = parseOpts rest st ∧
    ∀ (opts : List OptResult) (st2 : String × Nat),
      parseOpts (opts.filter fun o => !isUnknownOpt o) st2 = parseOpts opts st2 := by
  refine ⟨rfl, ?_⟩
  intro opts
  induction opts with
  | nil => intro st2; rfl
  | cons o tl ih =>
      intro st2
      obtain ⟨nm, d⟩ := st2
      cases o with
      | optC a =>
          show parseOpts (List.filter (fun o => !isUnknownOpt o) tl) (a, d)
              = parseOpts tl (a, d)
          exact ih _
      | optD =>
          show parseOpts (List.filter (fun o => !isUnknownOpt o) tl)
              (nm, (d + 1) % 4294967296) = parseOpts tl (nm, (d + 1) % 4294967296)
          exact ih _
      | unknown c1 =>
          show parseOpts (List.filter (fun o => !isUnknownOpt o) tl) (nm, d)
              = parseOpts tl (nm, d)
          exact ih _

theorem startupTail2_ok (cfg : BuildConfig) (env : StartEnv) (pre : List Event)
    (h1 : env.unveilPidOk = true) (h2 : env.unveilBinOk = true)
    (h3 : env.pledgeFinalOk = true) :
    startupTail2 cfg env pre =
      (pre ++ [Event.unveil env.pidfile "wc", Event.fopenPid env.pidfile,
               Event.unveil cfg.binpath "x", Event.pledge "stdio inet dns exec"]
         ++ (if env.pidOpenOk then
               [Event.writePid (Nat.repr (env.pid % 4294967296) ++ "\n"), Event.closePid,
                Event.installHandlers, Event.ignoreSigpipe, Event.armAlarm]
             else
               [Event.logMsg ("MAIN -> Error opening pid file " ++ env.pidfile ++ ": "
                  ++ env.errnoStr)]),
       if env.pidOpenOk then StartOutcome.enteredLoop else StartOutcome.exited 1) := by
  cases hp : env.pidOpenOk <;> simp [startupTail2, h1, h2, h3, hp, List.append_assoc]

theorem startupTail_ok (cfg : BuildConfig) (env : StartEnv) (pre : List Event)
    (hc : env.unveilConfOk = true) (hs : env.unveilScanOk = true)
    (h1 : env.unveilPidOk = true) (h2 : env.unveilBinOk = true)
    (h3 : env.pledgeFinalOk = true) :
    startupTail cfg env pre =
      (pre ++ [Event.logMsg ("MAIN -> HOPM " ++ cfg.version ++ " started."),
               Event.logMsg "MAIN -> Reading configuration file...",
               Event.unveil (conffileOf cfg env) "r", Event.configLoad (conffileOf cfg env)]
         ++ (match env.scanlog with
             | some sl => [Event.unveil sl "wc", Event.scanlogOpen sl]
             | none => [])
         ++ [Event.unveil env.pidfile "wc", Event.fopenPid env.pidfile,
             Event.unveil cfg.binpath "x", Event.pledge "stdio inet dns exec"]
         ++ (if env.pidOpenOk then
               [Event.writePid (Nat.repr (env.pid % 4294967296) ++ "\n"), Event.closePid,
                Event.installHandlers, Event.ignoreSigpipe, Event.armAlarm]
             else
               [Event.logMsg ("MAIN -> Error opening pid file " ++ env.pidfile ++ ": "
                  ++ env.errnoStr)]),
       if env.pidOpenOk then StartOutcome.enteredLoop else StartOutcome.exited 1) := by
  cases hsl : env.scanlog with
  | none =>
      rw [startupTail]
      simp only [hc, hsl, Bool.not_true, Bool.false_eq_true, if_false]
      rw [startupTail2_ok cfg env _ h1 h2 h3]
      simp [List.append_assoc]
  | some sl =>
      rw [startupTail]
      simp only [hc, hs, hsl, Bool.not_true, Bool.false_eq_true, if_false]
      rw [startupTail2_ok cfg env _ h1 h2 h3]
      simp [List.append_assoc]

theorem startupTrace_ok (cfg : BuildConfig) (env : StartEnv) (h : env.allOk) :
    startupTrace cfg env =
      ([Event.pledge "stdio rpath wpath cpath inet dns proc exec unveil",
        Event.unveil "/" "", Event.setupCore, Event.unveil cfg.instRoot "r",
        Event.chdirTo cfg.instRoot]
         ++ (if debugOf cfg env = 0 then
               [Event.forkCall, Event.setpgidCall, Event.umaskSet 0o77, Event.openDevNull,
                Event.dup2Std, Event.unveil (logfileOf cfg env) "wc",
                Event.logOpenCall (logfileOf cfg env)]
             else
               [Event.logMsg ("MAIN -> Debug level " ++ Nat.repr (debugOf cfg env))])
         ++ [Event.logMsg ("MAIN -> HOPM " ++ cfg.version ++ " started."),
             Event.logMsg "MAIN -> Reading configuration file...",
             Event.unveil (conffileOf cfg env) "r", Event.configLoad (conffileOf cfg env)]
         ++ (match env.scanlog with
             | some sl => [Event.unveil sl "wc", Event.scanlogOpen sl]
             | none => [])
         ++ [Event.unveil env.pidfile "wc", Event.fopenPid env.pidfile,
             Event.unveil cfg.binpath "x", Event.pledge "stdio inet dns exec"]
         ++ (if env.pidOpenOk then
               [Event.writePid (Nat.repr (env.pid % 4294967296) ++ "\n"), Event.closePid,
                Event.installHandlers, Event.ignoreSigpipe, Event.armAlarm]
             else
               [Event.logMsg ("MAIN -> Error opening pid file " ++ env.pidfile ++ ": "
                  ++ env.errnoStr)]),
       if env.pidOpenOk then StartOutcome.enteredLoop else StartOutcome.exited 1) := by
  obtain ⟨hA, hB, hC, hD, hE, hF, hG, hH, hI, hJ, hK, hL, hM⟩ := h
  by_cases hdbg : debugOf cfg env = 0
  · rw [startupTrace]
    simp only [hA, hB, hC, hD, hE, hF, hG, hH, hdbg, Bool.not_true, Bool.false_eq_true,
               if_false, if_true]
    rw [startupTail_ok cfg env _ hI hJ hK hL hM]
    simp [List.append_assoc]
  · rw [startupTrace]
    simp only [hA, hB, hC, hD, hdbg, Bool.not_true, Bool.false_eq_true, if_false]
    rw [startupTail_ok cfg env _ hI hJ hK hL hM]
    simp [List.append_assoc]

/-- C2 counterexample: on a concrete all-successful startup, projecting the
trace onto pid-file open, final narrowing and pid write shows the final
`pledge` occurring strictly between opening the pid file and writing the
pid — not after the pid has been written, and squarely inside the
open-to-write window, contrary to the claim. -/
theorem final_narrow_before_pid_write_cex :
    ((startupTrace cfgW startEnvW).1.filter
        (fun e => isFopenPid e || isFinalNarrow e || isWritePid e))
      = [Event.fopenPid "/usr/local/hopm/var/hopm.pid",
         Event.pledge "stdio inet dns exec", Event.writePid "42\n"] ∧
    List.indexOf (Event.pledge "stdio inet dns exec") (startupTrace cfgW startEnvW).1 <
      List.indexOf (Event.writePid "42\n") (startupTrace cfgW startEnvW).1 ∧
    List.indexOf (Event.fopenPid "/usr/local/hopm/var/hopm.pid")
        (startupTrace cfgW startEnvW).1 <
      List.indexOf (Event.pledge "stdio inet dns exec") (startupTrace cfgW startEnvW).1 :=
  ⟨by decide, by decide, by decide⟩

/-- C2 (amended): the final sandbox narrowing is performed exactly once, and
it occurs after the pid file has been opened for writing but before the
process id is written into it: projected onto pid-file open, final narrowing
and pid write, every all-successful startup trace reads open, then narrow,
then write. -/
theorem final_narrow_between_open_and_write (cfg : BuildConfig) (env : StartEnv)
    (h : env.allOk) (hp : env.pidOpenOk = true) :
    ((startupTrace cfg env).1.filter isFinalNarrow).length = 1 ∧
    (startupTrace cfg env).1.filter (fun e => isFopenPid e || isFinalNarrow e || isWritePid e)
      = [Event.fopenPid env.pidfile, Event.pledge "stdio inet dns exec",
         Event.writePid (Nat.repr (env.pid % 4294967296) ++ "\n")] := by
  rw [startupTrace_ok cfg env h]
  constructor <;>
    (by_cases hdbg : debugOf cfg env = 0 <;> cases hsl : env.scanlog <;>
      simp [hdbg, hsl, hp, List.filter_append, isFinalNarrow, isFopenPid, isWritePid])

/-- C2 witness. -/
theorem final_narrow_between_open_and_write_witness :
    (startEnvW.allOk ∧ startEnvW.pidOpenOk = true) ∧
    (((startupTrace cfgW startEnvW).1.filter isFinalNarrow).length = 1 ∧
    (startupTrace cfgW startEnvW).1.filter
        (fun e => isFopenPid e || isFinalNarrow e || isWritePid e)
      = [Event.fopenPid startEnvW.pidfile, Event.pledge "stdio inet dns exec",
         Event.writePid (Nat.repr (startEnvW.pid % 4294967296) ++ "\n")]) :=
  ⟨⟨by decide, rfl⟩, final_narrow_between_open_and_write cfgW startEnvW (by decide) rfl⟩

/-- C5: on an all-successful startup, the filesystem visibility grants of
the trace are exactly the spec's list in the spec's order — installation
root (read), log file (write/create, skipped entirely when the debug level
is nonzero), config file (read), optional scan log (write/create), pid file
(write/create), restart binary (execute); the projection of the trace onto
unveil calls and the final narrowing puts the final narrowing last (so no
grant follows it); and when the granted paths are pairwise distinct each
path is granted exactly once. -/
theorem startup_grant_order (cfg : BuildConfig) (env : StartEnv)
    (h : env.allOk) (hp : env.pidOpenOk = true) :
    grantsOf (startupTrace cfg env).1 = specGrantOrder cfg env ∧
    (startupTrace cfg env).1.filter (fun e => isUnveilEvent e || isFinalNarrow e)
      = [Event.unveil "/" "", Event.unveil cfg.instRoot "r"]
          ++ (if debugOf cfg env = 0 then [Event.unveil (logfileOf cfg env) "wc"] else [])
          ++ [Event.unveil (conffileOf cfg env) "r"]
          ++ (match env.scanlog with
              | some sl => [Event.unveil sl "wc"]
              | none => [])
          ++ [Event.unveil env.pidfile "wc", Event.unveil cfg.binpath "x",
              Event.pledge "stdio inet dns exec"] ∧
    (((specGrantOrder cfg env).map Prod.fst).Nodup →
      ((grantsOf (startupTrace cfg env).1).map Prod.fst).Nodup) := by
  have hg : grantsOf (startupTrace cfg env).1 = specGrantOrder cfg env := by
    rw [startupTrace_ok cfg env h]
    by_cases hdbg : debugOf cfg env = 0 <;> cases hsl : env.scanlog <;>
      simp [grantsOf, specGrantOrder, hdbg, hsl, hp, List.filterMap_append]
  refine ⟨hg, ?_, fun hd => by rw [hg]; exact hd⟩
  rw [startupTrace_ok cfg env h]
  by_cases hdbg : debugOf cfg env = 0 <;> cases hsl : env.scanlog <;>
    simp [hdbg, hsl, hp, List.filter_append, isUnveilEvent, isFinalNarrow]

/-- C5 witness. -/
theorem startup_grant_order_witness :
    (startEnvW.allOk ∧ startEnvW.pidOpenOk = true) ∧
    (grantsOf (startupTrace cfgW startEnvW).1 = specGrantOrder cfgW startEnvW ∧
    (startupTrace cfgW startEnvW).1.filter (fun e => isUnveilEvent e || isFinalNarrow e)
      = [Event.unveil "/" "", Event.unveil cfgW.instRoot "r"]
          ++ (if debugOf cfgW startEnvW = 0
              then [Event.unveil (logfileOf cfgW startEnvW) "wc"] else [])
          ++ [Event.unveil (conffileOf cfgW startEnvW) "r"]
          ++ (match startEnvW.scanlog with
              | some sl => [Event.unveil sl "wc"]
              | none => [])
          ++ [Event.unveil startEnvW.pidfile "wc", Event.unveil cfgW.binpath "x",
              Event.pledge "stdio inet dns exec"] ∧
    (((specGrantOrder cfgW startEnvW).map Prod.fst).Nodup →
      ((grantsOf (startupTrace cfgW startEnvW).1).map Prod.fst).Nodup)) :=
  ⟨⟨by decide, rfl⟩, startup_grant_order cfgW startEnvW (by decide) rfl⟩

/-- C8: on startup (all calls before it succeeding), the pid file is opened
for writing; if the open succeeds, the decimal process id followed by a
newline is written and the main loop is entered; if the open fails, the
process logs the pid-file path with the underlying OS error and exits with
status 1, never entering the main loop. -/
theorem pidfile_write_or_fatal (cfg : BuildConfig) (env : StartEnv) (h : env.allOk) :
    Event.fopenPid env.pidfile ∈ (startupTrace cfg env).1 ∧
    (env.pidOpenOk = true →
      Event.writePid (Nat.repr (env.pid % 4294967296) ++ "\n") ∈ (startupTrace cfg env).1 ∧
      (startupTrace cfg env).2 = StartOutcome.enteredLoop) ∧
    (env.pidOpenOk = false →
      (startupTrace cfg env).2 = StartOutcome.exited 1 ∧
      (startupTrace cfg env).2 ≠ StartOutcome.enteredLoop ∧
      Event.logMsg ("MAIN -> Error opening pid file " ++ env.pidfile ++ ": " ++ env.errnoStr)
        ∈ (startupTrace cfg env).1) := by
  rw [startupTrace_ok cfg env h]
  refine ⟨by simp, fun hp => ?_, fun hp => ?_⟩
  · constructor <;> simp [hp]
  · refine ⟨by simp [hp], by simp [hp], by simp [hp]⟩

/-- C8 witness, on the failing-open path. -/
theorem pidfile_write_or_fatal_witness :
    ({ startEnvW with pidOpenOk := false } : StartEnv).allOk ∧
    (Event.fopenPid ({ startEnvW with pidOpenOk := false } : StartEnv).pidfile
        ∈ (startupTrace cfgW { startEnvW with pidOpenOk := false }).1 ∧
    (({ startEnvW with pidOpenOk := false } : StartEnv).pidOpenOk = true →
      Event.writePid (Nat.repr (({ startEnvW with pidOpenOk := false } : StartEnv).pid
            % 4294967296) ++ "\n")
          ∈ (startupTrace cfgW { startEnvW with pidOpenOk := false }).1 ∧
      (startupTrace cfgW { startEnvW with pidOpenOk := false }).2
          = StartOutcome.enteredLoop) ∧
    (({ startEnvW with pidOpenOk := false } : StartEnv).pidOpenOk = false →
      (startupTrace cfgW { startEnvW with pidOpenOk := false }).2 = StartOutcome.exited 1 ∧
      (startupTrace cfgW { startEnvW with pidOpenOk := false }).2
          ≠ StartOutcome.enteredLoop ∧
      Event.logMsg ("MAIN -> Error opening pid file "
            ++ ({ startEnvW with pidOpenOk := false } : StartEnv).pidfile ++ ": "
            ++ ({ startEnvW with pidOpenOk := false } : StartEnv).errnoStr)
        ∈ (startupTrace cfgW { startEnvW with pidOpenOk := false }).1)) :=
  ⟨by decide, pidfile_write_or_fatal cfgW { startEnvW with pidOpenOk := false } (by decide)⟩

end Hopm
